import Mathlib

/-!
Verification development for the track-matching / playlist-sync core of
`spotify_to_tidal` (file `src/spotify_to_tidal/sync.py`).

The Python source is shallowly embedded: pure helper functions become Lean
functions on `List Char` / `String`, Python `float` second arithmetic is
rendered exactly over `ℚ`, machine integers are unbounded (Python ints),
fallible code (uncaught exceptions such as `AttributeError`, `IndexError`
and `AssertionError`) is rendered with `Option` / `Except`, and the
process-wide cache singletons become explicit state passing over a
`CacheState` record.
-/

namespace SpotifyToTidal

/-! ## String helpers (Python `str` operations used by `sync.py`) -/

/-- Python whitespace stripped by `str.strip()`: space, tab, newline,
carriage return, vertical tab, form feed. -/
def isPySpace (c : Char) : Bool :=
  c == ' ' || c == '\t' || c == '\n' || c == '\r' || c == '\x0b' || c == '\x0c'

/-- `str.strip()`: drop leading and trailing whitespace. -/
def trimList (l : List Char) : List Char :=
  ((l.dropWhile isPySpace).reverse.dropWhile isPySpace).reverse

/-- `s.split(c)[0]`: everything before the first occurrence of the character
`c` (the whole string when `c` does not occur). -/
def takeUntilChar (c : Char) (l : List Char) : List Char :=
  l.takeWhile (fun x => x != c)

/-- `str.split(c)` with a one-character separator: splits at every
occurrence, keeping empty pieces (Python semantics). -/
def splitOnChar (c : Char) : List Char → List (List Char)
  | [] => [[]]
  | x :: rest =>
    if x == c then [] :: splitOnChar c rest
    else
      match splitOnChar c rest with
      | [] => [[x]]
      | h :: t => (x :: h) :: t

/-- Is `pre` a leading segment of `l`?  (Helper for Python `in` / `split`.) -/
def leadsList : List Char → List Char → Bool
  | [], _ => true
  | _ :: _, [] => false
  | a :: as, b :: bs => a == b && leadsList as bs

/-- Python `needle in hay` substring test (empty needle is contained
everywhere, as in Python). -/
def containsSub : List Char → List Char → Bool
  | hay, needle =>
    leadsList needle hay ||
      match hay with
      | [] => false
      | _ :: t => containsSub t needle

/-- `s.split(sep)[0]` for a multi-character separator: everything before the
first occurrence of `sep`. -/
def beforeSub (sep : List Char) : List Char → List Char
  | [] => []
  | c :: rest => if leadsList sep (c :: rest) then [] else c :: beforeSub sep rest

/-- Python `str.lower()` (rendered for ASCII letters, which is what the
repository's track metadata comparisons exercise). -/
def strLower (s : String) : String := String.mk (s.data.map Char.toLower)

/-- `str.strip()` on `String`. -/
def strTrim (s : String) : String := String.mk (trimList s.data)

/-- Python substring test on `String`. -/
def strContainsSub (hay needle : String) : Bool := containsSub hay.data needle.data

/-- NFD base-letter table for `normalize`: a Latin letter with a diacritic
decomposes to its base ASCII letter followed by a combining mark which the
subsequent `encode('ascii','ignore')` drops; plain ASCII passes through;
any other character is dropped. -/
def nfdAsciiChar (c : Char) : Option Char :=
  match c with
  | 'á' | 'à' | 'â' | 'ä' | 'ã' | 'å' => some 'a'
  | 'é' | 'è' | 'ê' | 'ë' => some 'e'
  | 'í' | 'ì' | 'î' | 'ï' => some 'i'
  | 'ó' | 'ò' | 'ô' | 'ö' | 'õ' => some 'o'
  | 'ú' | 'ù' | 'û' | 'ü' => some 'u'
  | 'ñ' => some 'n'
  | 'ç' => some 'c'
  | 'ý' | 'ÿ' => some 'y'
  | 'Á' | 'À' | 'Â' | 'Ä' | 'Ã' | 'Å' => some 'A'
  | 'É' | 'È' | 'Ê' | 'Ë' => some 'E'
  | 'Í' | 'Ì' | 'Î' | 'Ï' => some 'I'
  | 'Ó' | 'Ò' | 'Ô' | 'Ö' | 'Õ' => some 'O'
  | 'Ú' | 'Ù' | 'Û' | 'Ü' => some 'U'
  | 'Ñ' => some 'N'
  | 'Ç' => some 'C'
  | _ => if c.toNat < 128 then some c else none

/-- `normalize(s)` from `sync.py`:
`unicodedata.normalize('NFD', s).encode('ascii', 'ignore').decode('ascii')`. -/
def normalize (s : String) : String := String.mk (s.data.filterMap nfdAsciiChar)

/-- `simple(input_string)` from `sync.py`:
`input_string.split('-')[0].strip().split('(')[0].strip().split('[')[0].strip()`. -/
def simple (s : String) : String :=
  String.mk (trimList (takeUntilChar '['
    (trimList (takeUntilChar '(' (trimList (takeUntilChar '-' s.data))))))

/-! ## Data model -/

/-- A Tidal track descriptor (the fields of `tidalapi.Track` read by
`sync.py`).  Artists are flattened to their name strings. -/
structure TidalTrack where
  id : Int
  name : String
  version : Option String
  artists : List String
  duration : Int
  isrc : Option String
  available : Bool

/-- The album dict inside a Spotify track (`spotify_track['album']`);
artists flattened to name strings. -/
structure SpotifyAlbum where
  name : String
  artists : List String

/-- A Spotify track dict as fetched by the playlist/favorites readers.
`id` is `Option`al (may be JSON null), `external_ids_isrc` models the
optional `external_ids["isrc"]` entry, `album` the optional `album` key. -/
structure SpotifyTrack where
  id : Option String
  name : String
  artists : List String
  album : Option SpotifyAlbum
  track_number : Nat
  duration_ms : Int
  external_ids_isrc : Option String

/-- A Tidal album descriptor for the album-first search phase:
`num_tracks` is the declared track count, `tracks` the list fetched lazily
by `album.tracks()`. -/
structure TidalAlbum where
  name : String
  artists : List String
  num_tracks : Nat
  tracks : List TidalTrack

/-- Python truthiness of `spotify_track['id']`: falsy when the key holds
`None` or the empty string. -/
def truthyOptStr : Option String → Bool
  | none => false
  | some s => s != ""

/-! ## MatchEngine (`isrc_match`, `duration_match`, `name_match`,
`artist_match`, `match`, `test_album_similarity`) -/

/-- `isrc_match(tidal_track, spotify_track)`: when the Spotify descriptor
carries an `external_ids["isrc"]` entry, exact equality against the Tidal
track's ISRC (`None` on the Tidal side never equals a string). -/
def isrc_match (t : TidalTrack) (s : SpotifyTrack) : Bool :=
  match s.external_ids_isrc with
  | some code => t.isrc == some code
  | none => false

/-- Absolute value on `Int` (Python `abs`). -/
def intAbs (x : Int) : Int := if x < 0 then -x else x

/-- `duration_match(tidal_track, spotify_track, tolerance)`:
`abs(tidal_track.duration - spotify_track['duration_ms']/1000) < tolerance`.
The source compares in seconds with the division `duration_ms/1000`; the
comparison is rendered exactly with the denominator cleared (both sides
multiplied by 1000), so it is the same inequality over the integers.  The
only call site uses the default `tolerance=2`. -/
def duration_match (t : TidalTrack) (s : SpotifyTrack) (tolerance : Int) : Bool :=
  decide (intAbs (1000 * t.duration - s.duration_ms) < 1000 * tolerance)

/-- The inner `exclusion_rule(pattern, tidal_track, spotify_track)` of
`name_match`: true when exactly one side mentions `pattern`
(case-insensitively; the Tidal side also checks its `version` field). -/
def exclusion_rule (pattern : String) (t : TidalTrack) (s : SpotifyTrack) : Bool :=
  let spotify_has := strContainsSub (strLower s.name) pattern
  let tidal_has := strContainsSub (strLower t.name) pattern ||
    (match t.version with
     | some v => strContainsSub (strLower v) pattern
     | none => false)
  spotify_has != tidal_has

/-- The substring criterion at the end of `name_match`: the simplified
lower-cased Spotify name (with any `feat.` clause stripped) must occur in
the lower-cased Tidal name, raw or after `normalize`. -/
def nameSubstringOk (t : TidalTrack) (s : SpotifyTrack) : Bool :=
  let simple_spotify := strTrim (String.mk (beforeSub "feat.".data (simple (strLower s.name)).data))
  strContainsSub (strLower t.name) simple_spotify ||
    strContainsSub (normalize (strLower t.name)) (normalize simple_spotify)

/-- `name_match(tidal_track, spotify_track)`: the three marker-word
exclusion rules, then the simplified-substring criterion. -/
def name_match (t : TidalTrack) (s : SpotifyTrack) : Bool :=
  if exclusion_rule "instrumental" t s then false
  else if exclusion_rule "acapella" t s then false
  else if exclusion_rule "remix" t s then false
  else nameSubstringOk t s

/-- `split_artist_name(artist)`: split on `'&'` when present, else on
`','`, else the singleton. -/
def split_artist_name (artist : String) : List String :=
  if artist.data.any (fun c => c == '&') then (splitOnChar '&' artist.data).map String.mk
  else if artist.data.any (fun c => c == ',') then (splitOnChar ',' artist.data).map String.mk
  else [artist]

/-- The token sets built by `get_tidal_artists` / `get_spotify_artists`
(identical pipelines): optional `normalize`, split each artist string, then
`simple(x.strip().lower())` on every token.  The Python `set` is kept as a
token list; only nonempty-intersection is ever consumed. -/
def artistTokens (doNormalize : Bool) (artists : List String) : List String :=
  ((artists.map (fun a => split_artist_name (if doNormalize then normalize a else a))).flatten).map
    (fun x => simple (strLower (strTrim x)))

/-- Nonempty intersection of two token sets (`set.intersection(...) != set()`). -/
def tokensIntersect (a b : List String) : Bool := a.any (fun x => b.contains x)

/-- `artist_match(tidal, spotify)`: overlap of simplified artist tokens,
tried raw and then normalized.  Parameterised on the two artist-name lists
so it serves both `tidalapi.Track` and `tidalapi.Album` receivers. -/
def artist_match (tidalArtists spotifyArtists : List String) : Bool :=
  tokensIntersect (artistTokens false tidalArtists) (artistTokens false spotifyArtists) ||
    tokensIntersect (artistTokens true tidalArtists) (artistTokens true spotifyArtists)

/-- `match(tidal_track, spotify_track, logger=None)`.  Every execution path
of the Python function calls `logger.log(...)` unconditionally, so when the
caller omits the logger (Python default `None`) the call raises
`AttributeError` — rendered as `none`.  With a logger present the function
returns the Boolean documented by the spec: id gate, then ISRC path, then
the combined duration/name/artist criteria (duration tolerance default 2). -/
def matchRun (hasLogger : Bool) (t : TidalTrack) (s : SpotifyTrack) : Option Bool :=
  if truthyOptStr s.id = false then
    (if hasLogger then some false else none)
  else if isrc_match t s then
    (if hasLogger then some true else none)
  else if hasLogger = false then none
  else some (duration_match t s 2 && name_match t s && artist_match t.artists s.artists)

/-- `test_album_similarity(spotify_album, tidal_album, threshold=0.6)`:
`SequenceMatcher` ratio of the simplified album names against the
threshold, conjoined with `artist_match`.  The difflib ratio is an external
library computation, abstracted as the parameter `ratio`. -/
def test_album_similarity (ratio : String → String → ℚ) (spotifyAlbum : SpotifyAlbum)
    (tidalAlbum : TidalAlbum) (threshold : ℚ) : Bool :=
  decide (ratio (simple spotifyAlbum.name) (simple tidalAlbum.name) ≥ threshold) &&
    artist_match tidalAlbum.artists spotifyAlbum.artists

/-! ## Cache layer

The cache module (`from .cache import failure_cache, track_match_cache`) is
not part of the repository sources available here; its operations are
modelled from the spec's cache-layer contract and threaded as explicit
state. -/

/-- Modelled from the spec: the persisted match relation (`MatchCache`, at
most one target id per source id, idempotent overwrite on `insert`) and the
failure set (`FailureCache` with `has`/`cache`/`remove`), keyed by Spotify
track id. -/
structure CacheState where
  matchCache : List (String × Int)
  failureCache : List String

/-- Modelled from the spec: `MatchCache.get(source_id) -> target_id?`. -/
def CacheState.getMatch (st : CacheState) (sid : String) : Option Int :=
  (st.matchCache.find? (fun p => p.1 == sid)).map (fun p => p.2)

/-- Modelled from the spec: `MatchCache.insert((source_id, target_id))`
with idempotent-overwrite semantics. -/
def CacheState.insertMatch (st : CacheState) (sid : String) (tid : Int) : CacheState :=
  CacheState.mk ((sid, tid) :: st.matchCache.filter (fun p => p.1 != sid)) st.failureCache

/-- Modelled from the spec: `FailureCache.has(source_id)`
(`failure_cache.has_match_failure`). -/
def CacheState.hasMatchFailure (st : CacheState) (sid : String) : Bool :=
  decide (sid ∈ st.failureCache)

/-- Modelled from the spec: `FailureCache.cache(source_id)`
(`failure_cache.cache_match_failure`). -/
def CacheState.cacheMatchFailure (st : CacheState) (sid : String) : CacheState :=
  CacheState.mk st.matchCache
    (if decide (sid ∈ st.failureCache) then st.failureCache else sid :: st.failureCache)

/-- Modelled from the spec: `FailureCache.remove(source_id)`
(`failure_cache.remove_match_failure`). -/
def CacheState.removeMatchFailure (st : CacheState) (sid : String) : CacheState :=
  CacheState.mk st.matchCache (st.failureCache.filter (fun x => x != sid))

/-! ## SearchOrchestrator: `tidal_search` and its two phases

The Tidal catalog is external; its responses to the two queries are the
`SearchEnv` input.  The difflib `SequenceMatcher(...).ratio()` computation
is an external library call, abstracted as the `ratio` parameter.  Inside
`tidal_search` every `match` / `test_album_similarity` call passes the
logger, so the with-logger behaviour (`matchRun true`) applies. -/

/-- The candidate lists the Tidal catalog returns for the album query and
for the standalone track query. -/
structure SearchEnv where
  albumResults : List TidalAlbum
  trackResults : List TidalTrack

/-- Uncaught Python exceptions that the search phases can raise. -/
inductive SearchError where
  | assertionError
  | indexError

/-- Python list indexing `l[i]` with negative-index wraparound;
`none` models `IndexError`. -/
def pyIndexGet (l : List TidalTrack) (i : Int) : Option TidalTrack :=
  if 0 ≤ i then l.get? i.toNat
  else
    let j : Int := (l.length : Int) + i
    if 0 ≤ j then l.get? j.toNat else none

/-- The candidate loop of `_search_for_track_in_album`: a candidate album
is considered when its declared `num_tracks` is at least the source
`track_number` and `test_album_similarity` holds; a fetched track list
shorter than `track_number` asserts `len(album_tracks) != album.num_tracks`
and skips the candidate; otherwise the entry at `track_number - 1` is
tested with `match` (logger present). -/
def searchAlbumPhase (ratio : String → String → ℚ) (s : SpotifyTrack) (salbum : SpotifyAlbum) :
    List TidalAlbum → Except SearchError (Option TidalTrack)
  | [] => .ok none
  | album :: rest =>
    if decide (s.track_number ≤ album.num_tracks) &&
        test_album_similarity ratio salbum album (0.6 : ℚ) then
      if album.tracks.length < s.track_number then
        if album.tracks.length == album.num_tracks then .error .assertionError
        else searchAlbumPhase ratio s salbum rest
      else
        match pyIndexGet album.tracks ((s.track_number : Int) - 1) with
        | none => .error .indexError
        | some track =>
          if matchRun true track s == some true then .ok (some track)
          else searchAlbumPhase ratio s salbum rest
    else searchAlbumPhase ratio s salbum rest

/-- The candidate loop of `_search_for_standalone_track`: first candidate
accepted by `match` (logger present). -/
def searchStandalonePhase (s : SpotifyTrack) : List TidalTrack → Option TidalTrack
  | [] => none
  | track :: rest =>
    if matchRun true track s == some true then some track
    else searchStandalonePhase s rest

/-- `tidal_search(spotify_track, ..., logger)`: album-first phase (only
when the track carries an album with a nonempty artist list), then the
standalone fallback; on success in either phase the failure marker for the
track id is removed; if neither succeeds the id is recorded in the failure
cache.  The standalone query string reads `spotify_track['artists'][0]`,
an `IndexError` when the artist list is empty.  `albumPhaseRun` is the
guarded album phase: it runs only when the track carries an album with a
nonempty artist list. -/
def albumPhaseRun (ratio : String → String → ℚ) (s : SpotifyTrack) (env : SearchEnv) :
    Except SearchError (Option TidalTrack) :=
  match s.album with
  | some alb => if alb.artists.isEmpty then .ok none
                else searchAlbumPhase ratio s alb env.albumResults
  | none => .ok none

/-- The body of `tidal_search` proper: album phase, then standalone phase,
with the failure-cache updates of both phases. -/
def tidalSearchModel (ratio : String → String → ℚ) (s : SpotifyTrack) (env : SearchEnv)
    (st : CacheState) : Except SearchError (Option TidalTrack × CacheState) :=
  match albumPhaseRun ratio s env with
  | .error e => .error e
  | .ok (some track) => .ok (some track, st.removeMatchFailure (s.id.getD ""))
  | .ok none =>
    if s.artists.isEmpty then .error .indexError
    else
      match searchStandalonePhase s env.trackResults with
      | some track => .ok (some track, st.removeMatchFailure (s.id.getD ""))
      | none => .ok (none, st.cacheMatchFailure (s.id.getD ""))

/-! ## RetryPolicy: `repeat_on_request_error` -/

/-- Outcome of one provider-call attempt.  The three named error classes
are exactly the ones the `except` clause catches
(`tidalapi.exceptions.TooManyRequests`,
`requests.exceptions.RequestException`,
`spotipy.exceptions.SpotifyException`); `otherError` is any other
exception. -/
inductive CallOutcome where
  | success (v : Nat)
  | tooManyRequests
  | requestError
  | spotifyError
  | otherError

/-- Exactly the exception classes caught by `repeat_on_request_error`. -/
def isTransient : CallOutcome → Bool
  | .tooManyRequests => true
  | .requestError => true
  | .spotifyError => true
  | _ => false

/-- How an invocation of `repeat_on_request_error` ends: a returned value,
a fatal `sys.exit(1)` abort, or an uncaught exception propagating. -/
inductive RetryResult where
  | returned (v : Nat)
  | aborted
  | raised

/-- The sleep table `{5: 1, 4: 10, 3: 60, 2: 5*60, 1: 10*60}` with
`.get(remaining, 1)` default, indexed by the remaining-attempts counter. -/
def sleep_schedule (remaining : Nat) : Nat :=
  if remaining = 5 then 1
  else if remaining = 4 then 10
  else if remaining = 3 then 60
  else if remaining = 2 then 5 * 60
  else if remaining = 1 then 10 * 60
  else 1

/-- `repeat_on_request_error(function, *args, remaining=5)`: the wrapped
call is modelled by `f` applied to the attempt number.  A transient
exception with `remaining == 0` aborts (`sys.exit(1)`); with
`remaining > 0` it sleeps `sleep_schedule remaining` and recurses with
`remaining - 1`.  A non-transient exception propagates immediately.  The
result is paired with the list of sleep durations performed. -/
def repeatOnRequestError (f : Nat → CallOutcome) : Nat → Nat → RetryResult × List Nat
  | attempt, remaining =>
    match f attempt with
    | .success v => (.returned v, [])
    | .otherError => (.raised, [])
    | _ =>
      match remaining with
      | 0 => (.aborted, [])
      | r + 1 =>
        let rest := repeatOnRequestError f (attempt + 1) r
        (rest.1, sleep_schedule (r + 1) :: rest.2)
  termination_by _ remaining => remaining

/-! ## Cache pre-population: `populate_track_match_cache`

Both inner helpers call `match(tidal_track, spotify_track)` with the
logger argument omitted, i.e. the no-logger behaviour `matchRun false`;
`.error ()` models the resulting uncaught `AttributeError`. -/

/-- `_populate_one_track_from_tidal(tidal_track)`: scan the current Spotify
list, bind the first track with `tidal_track.available and match(...)`,
insert the pair and remove that Spotify track. -/
def populateOneFromTidal (tt : TidalTrack) :
    List SpotifyTrack → CacheState → Except Unit (List SpotifyTrack × CacheState)
  | [], st => .ok ([], st)
  | s :: rest, st =>
    if tt.available then
      match matchRun false tt s with
      | none => .error ()
      | some true => .ok (rest, st.insertMatch (s.id.getD "") tt.id)
      | some false =>
        match populateOneFromTidal tt rest st with
        | .error e => .error e
        | .ok (l, st1) => .ok (s :: l, st1)
    else
      match populateOneFromTidal tt rest st with
      | .error e => .error e
      | .ok (l, st1) => .ok (s :: l, st1)

/-- `_populate_one_track_from_spotify(spotify_track)`: scan the current
Tidal list, bind the first available matching track, insert the pair and
remove that Tidal track. -/
def populateOneFromSpotify (s : SpotifyTrack) :
    List TidalTrack → CacheState → Except Unit (List TidalTrack × CacheState)
  | [], st => .ok ([], st)
  | tt :: rest, st =>
    if tt.available then
      match matchRun false tt s with
      | none => .error ()
      | some true => .ok (rest, st.insertMatch (s.id.getD "") tt.id)
      | some false =>
        match populateOneFromSpotify s rest st with
        | .error e => .error e
        | .ok (l, st1) => .ok (tt :: l, st1)
    else
      match populateOneFromSpotify s rest st with
      | .error e => .error e
      | .ok (l, st1) => .ok (tt :: l, st1)

/-- First pass of `populate_track_match_cache`: for each Tidal track in
list order, consume the first matching Spotify track. -/
def populateFromTidalPass :
    List TidalTrack → List SpotifyTrack → CacheState → Except Unit (List SpotifyTrack × CacheState)
  | [], sts, st => .ok (sts, st)
  | tt :: rest, sts, st =>
    match populateOneFromTidal tt sts st with
    | .error e => .error e
    | .ok (sts1, st1) => populateFromTidalPass rest sts1 st1

/-- Second pass: for each remaining Spotify track, consume the first
matching Tidal track (the Tidal list starts from the full original list —
the first pass does not remove Tidal tracks). -/
def populateFromSpotifyPass :
    List SpotifyTrack → List TidalTrack → CacheState → Except Unit (List TidalTrack × CacheState)
  | [], tts, st => .ok (tts, st)
  | s :: rest, tts, st =>
    match populateOneFromSpotify s tts st with
    | .error e => .error e
    | .ok (tts1, st1) => populateFromSpotifyPass rest tts1 st1

/-- `populate_track_match_cache(spotify_tracks_, tidal_tracks_)`: copies of
the input lists, the Tidal-driven pass, then the Spotify-driven pass over
the unmatched remainder. -/
def populateTrackMatchCache (sts : List SpotifyTrack) (tts : List TidalTrack)
    (st : CacheState) : Except Unit CacheState :=
  match populateFromTidalPass tts sts st with
  | .error e => .error e
  | .ok (stsRemaining, st1) =>
    match populateFromSpotifyPass stsRemaining tts st1 with
    | .error e => .error e
    | .ok (_, st2) => .ok st2

/-! ## Desired-sequence builder: `get_tracks_for_new_tidal_playlist` -/

/-- The loop of `get_tracks_for_new_tidal_playlist`, with the `seen_tracks`
set made explicit: skip tracks with a falsy id, skip ids without a (truthy)
cache entry, report-and-drop duplicates, otherwise emit and remember. -/
def getTracksGo (st : CacheState) (seen : List Int) : List SpotifyTrack → List Int
  | [] => []
  | s :: rest =>
    if truthyOptStr s.id = false then getTracksGo st seen rest
    else
      match st.getMatch (s.id.getD "") with
      | none => getTracksGo st seen rest
      | some tid =>
        if tid = 0 then getTracksGo st seen rest
        else if decide (tid ∈ seen) then getTracksGo st seen rest
        else tid :: getTracksGo st (tid :: seen) rest

/-- `get_tracks_for_new_tidal_playlist(spotify_tracks)` against the match
cache in `st`. -/
def getTracksForNewTidalPlaylist (st : CacheState) (tracks : List SpotifyTrack) : List Int :=
  getTracksGo st [] tracks

/-- The per-track candidate the loop would emit ignoring deduplication:
`none` when the Spotify id is falsy, absent from the match cache, or mapped
to a falsy target id. -/
def candOf (st : CacheState) (s : SpotifyTrack) : Option Int :=
  if truthyOptStr s.id = false then none
  else
    match st.getMatch (s.id.getD "") with
    | none => none
    | some tid => if tid = 0 then none else some tid

/-- Keep the first occurrence of every element, dropping later duplicates
(the spec's description of the deduplicated desired sequence). -/
def dedupKeepFirst : List Int → List Int
  | [] => []
  | x :: xs => x :: dedupKeepFirst (xs.filter (fun y => y != x))
  termination_by l => l.length
  decreasing_by simp_wf; exact Nat.lt_succ_of_le (List.length_filter_le _ _)

/-! ## PlaylistReconciler: the update decision in `sync_playlist` -/

/-- The three mutation plans `sync_playlist` can choose for the target
playlist. -/
inductive PlaylistAction where
  | noop
  | append (suffix : List Int)
  | replace (all : List Int)

/-- The decision at the end of `sync_playlist`:
`new == old` → no-op; `new[:len(old)] == old` → append only the suffix
`new[len(old):]`; otherwise clear and rewrite everything. -/
def reconcile (desired current : List Int) : PlaylistAction :=
  if desired = current then .noop
  else if desired.take current.length = current then .append (desired.drop current.length)
  else .replace desired

/-! ## Concrete descriptors used by counterexamples and witnesses -/

/-- A Tidal track whose name, artists and duration share nothing with the
Spotify tracks below, but which carries the ISRC `QZES71982312`. -/
def tIsrc : TidalTrack := ⟨11, "Completely Different Name", none, ["Other Artist"], 500, some "QZES71982312", true⟩

/-- A Spotify track with the same ISRC but a falsy (`None`) id. -/
def sNoId : SpotifyTrack := ⟨none, "Song", ["Artist"], none, 1, 200000, some "QZES71982312"⟩

/-- A Spotify track with the same ISRC and a truthy id. -/
def sIsrcW : SpotifyTrack := ⟨some "sp1", "Another Title", ["Nobody"], none, 3, 99000, some "QZES71982312"⟩

/-- Tidal `Song (Remix)` carrying an ISRC. -/
def tRemix : TidalTrack := ⟨12, "Song (Remix)", none, ["Artist"], 300, some "USUM71703861", true⟩

/-- Spotify plain `Song` with the same ISRC as `tRemix`. -/
def sPlain : SpotifyTrack := ⟨some "sp2", "Song", ["Artist"], none, 1, 300000, some "USUM71703861"⟩

/-- Tidal `Song (Remix)` without ISRC. -/
def tRemixNoIsrc : TidalTrack := ⟨13, "Song (Remix)", none, ["Artist"], 300, none, true⟩

/-- Spotify plain `Song` without ISRC. -/
def sPlainNoIsrc : SpotifyTrack := ⟨some "sp4", "Song", ["Artist"], none, 1, 300000, none⟩

/-- Spotify `Song (Remix)` without ISRC, same artist and duration as
`tRemixNoIsrc`. -/
def sRemixBoth : SpotifyTrack := ⟨some "sp3", "Song (Remix)", ["Artist"], none, 1, 300000, none⟩

/-! ## C1 -/

/-- C1 counterexample: the claim asserts that equal non-empty ISRCs alone
force a match with no other precondition on the source descriptor, but a
source track with a falsy id is rejected before the ISRC path is ever
consulted: here both ISRCs are `QZES71982312` yet `match` returns false. -/
theorem c1_counterexample :
    sNoId.external_ids_isrc = some "QZES71982312" ∧ tIsrc.isrc = some "QZES71982312" ∧
    ("QZES71982312" : String) ≠ "" ∧ matchRun true tIsrc sNoId = some false := by
  decide

/-- C1 (amended): for every pair with present equal ISRC codes, provided
the source track has a truthy id, `match` (invoked with a logger) returns
true regardless of all name, artist and duration fields. -/
theorem c1_isrc_path (t : TidalTrack) (s : SpotifyTrack) (code : String)
    (hid : truthyOptStr s.id = true) (hs : s.external_ids_isrc = some code)
    (ht : t.isrc = some code) : matchRun true t s = some true := by
  simp [matchRun, hid, isrc_match, hs, ht]

/-- C1 witness: the amended theorem applied to a concrete pair agreeing
only on the ISRC. -/
theorem c1_isrc_path_witness : matchRun true tIsrc sIsrcW = some true :=
  c1_isrc_path tIsrc sIsrcW "QZES71982312" (by decide) rfl rfl

/-! ## C2 -/

/-- C2: the claim says `match` always returns a bool and never raises, in
particular when invoked without a trace logger as the cache pre-population
pass does.  In the code every execution path of `match` calls
`logger.log(...)`, so with the default `logger=None` every invocation
raises `AttributeError` (modelled as `none`) — for all inputs, not just
some. -/
theorem c2_match_without_logger_raises (t : TidalTrack) (s : SpotifyTrack) :
    matchRun false t s = none := by
  unfold matchRun
  split
  · simp
  · split
    · simp
    · simp

/-! ## C4 -/

/-- C4 counterexample: the claim asserts an asymmetric marker word always
forces a non-match ("a source named Song and a target named Song (Remix)
never match"), but the ISRC path is checked before the exclusion rules:
this pair has the marker `remix` on the Tidal side only and still
matches because the ISRCs are equal. -/
theorem c4_counterexample :
    exclusion_rule "remix" tRemix sPlain = true ∧ matchRun true tRemix sPlain = some true := by
  decide

/-- C4 (amended): when the ISRC path does not apply, an asymmetric
occurrence of any of the three marker words forces `match` to return
false; and a source and target both named `Song (Remix)` can still match
when the remaining criteria pass (concrete second conjunct). -/
theorem c4_exclusion :
    (∀ (t : TidalTrack) (s : SpotifyTrack) (p : String),
      (p = "instrumental" ∨ p = "acapella" ∨ p = "remix") →
      exclusion_rule p t s = true → isrc_match t s = false →
      matchRun true t s = some false)
    ∧ matchRun true tRemixNoIsrc sRemixBoth = some true := by
  constructor
  · intro t s p hp hex hisrc
    cases hid : truthyOptStr s.id with
    | false => simp [matchRun, hid]
    | true =>
      have hnm : name_match t s = false := by
        unfold name_match
        rcases hp with h | h | h <;> subst h
        · simp [hex]
        · split
          · rfl
          · simp [hex]
        · split
          · rfl
          · split
            · rfl
            · simp [hex]
      simp [matchRun, hid, hisrc, hnm]
  · decide

/-- C4 witness: the amended theorem applied to an ISRC-free pair where
only the Tidal side carries `remix`. -/
theorem c4_exclusion_witness : matchRun true tRemixNoIsrc sPlainNoIsrc = some false :=
  c4_exclusion.1 tRemixNoIsrc sPlainNoIsrc "remix" (Or.inr (Or.inr rfl)) (by decide) (by decide)

/-! ## C5 -/

/-- C5: the reconciliation step at the end of `sync_playlist` chooses, in
priority order: no-op when desired equals current; append of exactly the
suffix `desired[len(current):]` when current is a proper prefix of
desired; otherwise clear-and-rewrite of all of desired. -/
theorem c5_reconcile (desired current : List Int) :
    (desired = current → reconcile desired current = .noop)
    ∧ (desired ≠ current → current <+: desired →
        reconcile desired current = .append (desired.drop current.length))
    ∧ (¬ current <+: desired → reconcile desired current = .replace desired) := by
  refine ⟨?_, ?_, ?_⟩
  · intro h; subst h; simp [reconcile]
  · intro hne hpre
    have ht : desired.take current.length = current := (List.prefix_iff_eq_take.mp hpre).symm
    simp [reconcile, hne, ht]
  · intro hnp
    have hne : desired ≠ current := by rintro rfl; exact hnp (List.prefix_refl _)
    have ht : ¬ desired.take current.length = current := by
      intro h; exact hnp (List.prefix_iff_eq_take.mpr h.symm)
    simp [reconcile, hne, ht]

/-- C5 witness: the three spec examples — append-only with payload `[3]`,
full replace, and no-op. -/
theorem c5_reconcile_witness :
    reconcile [1, 2, 3] [1, 2] = .append [3]
    ∧ reconcile [1, 3, 2] [1, 2] = .replace [1, 3, 2]
    ∧ reconcile [1, 2] [1, 2] = .noop :=
  ⟨(c5_reconcile [1, 2, 3] [1, 2]).2.1 (by decide) (by decide),
   (c5_reconcile [1, 3, 2] [1, 2]).2.2 (by decide),
   (c5_reconcile [1, 2] [1, 2]).1 rfl⟩

/-! ## C8 -/

/-- When every attempt fails with a caught transient error, the wrapper
performs the whole escalating sleep schedule and aborts. -/
theorem repeat_all_transient (f : Nat → CallOutcome) (h : ∀ n, isTransient (f n) = true) :
    ∀ (r attempt : Nat), repeatOnRequestError f attempt r =
      (.aborted, (List.range r).reverse.map (fun k => sleep_schedule (k + 1))) := by
  intro r
  induction r with
  | zero =>
    intro a
    have ha := h a
    cases hf : f a <;> rw [hf] at ha <;> simp [isTransient] at ha <;>
      simp [repeatOnRequestError, hf]
  | succ k ih =>
    intro a
    have ha := h a
    cases hf : f a <;> rw [hf] at ha <;> simp [isTransient] at ha <;>
      simp [repeatOnRequestError, hf, ih (a + 1), List.range_succ]

/-- C8: the retry wrapper catches exactly the three transient classes; on
persistent transient failure it performs 5 retries after the initial call,
sleeping `[1, 10, 60, 300, 600]` seconds as indexed by the remaining
counter, and ends in a fatal abort (`sys.exit(1)`) rather than returning;
a successful call returns its value immediately, and any other exception
propagates immediately with no retry and no sleep. -/
theorem c8_retry (f : Nat → CallOutcome) (attempt : Nat) :
    ((∀ n, isTransient (f n) = true) →
      repeatOnRequestError f attempt 5 = (.aborted, [1, 10, 60, 300, 600]))
    ∧ (∀ v remaining, f attempt = .success v →
        repeatOnRequestError f attempt remaining = (.returned v, []))
    ∧ (∀ remaining, f attempt = .otherError →
        repeatOnRequestError f attempt remaining = (.raised, [])) := by
  refine ⟨?_, ?_, ?_⟩
  · intro h
    rw [repeat_all_transient f h 5 attempt]
    rfl
  · intro v remaining h
    cases remaining <;> simp [repeatOnRequestError, h]
  · intro remaining h
    cases remaining <;> simp [repeatOnRequestError, h]

/-- C8 witness: the wrapper evaluated under an always-rate-limited
provider, an immediately successful provider, and a provider raising a
non-transient error. -/
theorem c8_retry_witness :
    repeatOnRequestError (fun _ => .tooManyRequests) 0 5 = (.aborted, [1, 10, 60, 300, 600])
    ∧ repeatOnRequestError (fun _ => .success 7) 0 5 = (.returned 7, [])
    ∧ repeatOnRequestError (fun _ => .otherError) 0 5 = (.raised, []) :=
  ⟨(c8_retry (fun _ => .tooManyRequests) 0).1 (fun _ => rfl),
   (c8_retry (fun _ => .success 7) 0).2.1 7 5 rfl,
   (c8_retry (fun _ => .otherError) 0).2.2 5 rfl⟩

/-! ## C3 -/

/-- A matching pair for the combined path: same name, artist, duration;
no ISRC anywhere. -/
def tC3 : TidalTrack := ⟨31, "Great Song", none, ["Artist"], 200, none, true⟩

/-- Spotify side of the combined-path pair. -/
def sC3 : SpotifyTrack := ⟨some "sp31", "Great Song", ["Artist"], none, 1, 200000, none⟩

/-- Same Spotify track but 300 seconds longer. -/
def sC3far : SpotifyTrack := ⟨some "sp32", "Great Song", ["Artist"], none, 1, 500000, none⟩

/-- C3: when the source has a truthy id, the ISRC path does not apply and
no exclusion marker fires, `match` returns exactly the conjunction of the
duration, simplified-name-substring and artist-overlap criteria (as
defined by `duration_match`, `nameSubstringOk`, `artist_match` with
tolerance 2); and for every pair lacking an ISRC whose duration difference
is at least the tolerance, `match` returns false unconditionally. -/
theorem c3_combined (t : TidalTrack) (s : SpotifyTrack) :
    (truthyOptStr s.id = true → isrc_match t s = false →
      exclusion_rule "instrumental" t s = false →
      exclusion_rule "acapella" t s = false →
      exclusion_rule "remix" t s = false →
      matchRun true t s =
        some (duration_match t s 2 && nameSubstringOk t s && artist_match t.artists s.artists))
    ∧ (s.external_ids_isrc = none → duration_match t s 2 = false →
        matchRun true t s = some false) := by
  constructor
  · intro hid hisrc h1 h2 h3
    have hnm : name_match t s = nameSubstringOk t s := by
      unfold name_match
      simp [h1, h2, h3]
    simp [matchRun, hid, hisrc, hnm]
  · intro hnone hdur
    have hisrc : isrc_match t s = false := by simp [isrc_match, hnone]
    cases hid : truthyOptStr s.id with
    | false => simp [matchRun, hid]
    | true => simp [matchRun, hid, hisrc, hdur]

/-- C3 witness: the combined-criteria equation on a concrete ISRC-free
pair, and the duration-mismatch rejection on a pair 300 seconds apart. -/
theorem c3_combined_witness :
    matchRun true tC3 sC3 =
      some (duration_match tC3 sC3 2 && nameSubstringOk tC3 sC3 &&
        artist_match tC3.artists sC3.artists)
    ∧ matchRun true tC3 sC3far = some false :=
  ⟨(c3_combined tC3 sC3).1 (by decide) (by decide) (by decide) (by decide) (by decide),
   (c3_combined tC3 sC3far).2 rfl (by decide)⟩

/-! ## C9 -/

/-- Did the album phase finish without an uncaught exception? -/
def phaseOk : Except SearchError (Option TidalTrack) → Bool
  | .ok _ => true
  | .error _ => false

/-- C9: with a 1-based `track_number` (the data model fixes position as
1-based), the album-first candidate loop never raises: a candidate is
considered only when `num_tracks ≥ track_number` and the similarity test
holds, a fetched list shorter than `track_number` is skipped via
`continue`, and in that degenerate case the fetched length can never equal
the declared count, so the `assert` always holds (second conjunct). -/
theorem c9_album_phase (ratio : String → String → ℚ) (s : SpotifyTrack)
    (salbum : SpotifyAlbum) (albums : List TidalAlbum) (h1 : 1 ≤ s.track_number) :
    phaseOk (searchAlbumPhase ratio s salbum albums) = true
    ∧ ∀ album ∈ albums, s.track_number ≤ album.num_tracks →
        album.tracks.length < s.track_number → album.tracks.length ≠ album.num_tracks := by
  constructor
  · induction albums with
    | nil => rfl
    | cons album rest ih =>
      simp only [searchAlbumPhase]
      split
      · rename_i hg
        rw [Bool.and_eq_true, decide_eq_true_eq] at hg
        have hnum : s.track_number ≤ album.num_tracks := hg.1
        split
        · rename_i hlt
          split
          · rename_i heq
            exfalso
            have hl : album.tracks.length = album.num_tracks := by simpa using heq
            omega
          · exact ih
        · rename_i hge
          have hle : s.track_number ≤ album.tracks.length := Nat.not_lt.mp hge
          have h0 : (0 : Int) ≤ (s.track_number : Int) - 1 := by omega
          have htoNat : ((s.track_number : Int) - 1).toNat = s.track_number - 1 := by omega
          obtain ⟨tr, htr⟩ : ∃ tr, album.tracks.get? (s.track_number - 1) = some tr := by
            cases hg2 : album.tracks.get? (s.track_number - 1) with
            | none => exfalso; rw [List.get?_eq_none] at hg2; omega
            | some tr => exact ⟨tr, rfl⟩
          simp only [pyIndexGet, if_pos h0, htoNat, htr]
          split
          · rfl
          · exact ih
      · exact ih
  · intro album _ ha hb
    omega

/-- C9 witness: the phase applied to a degenerate candidate album that
declares 5 tracks but whose fetched list is empty (the data-inconsistency
skip), under an always-1 similarity ratio. -/
theorem c9_album_phase_witness :
    phaseOk (searchAlbumPhase (fun _ _ => (1 : ℚ))
      (SpotifyTrack.mk (some "sp9") "Song" ["Artist"] (some ⟨"Album", ["Artist"]⟩) 1 200000 none)
      ⟨"Album", ["Artist"]⟩ [TidalAlbum.mk "Album" ["Artist"] 5 []]) = true :=
  (c9_album_phase (fun _ _ => (1 : ℚ))
      (SpotifyTrack.mk (some "sp9") "Song" ["Artist"] (some ⟨"Album", ["Artist"]⟩) 1 200000 none)
      ⟨"Album", ["Artist"]⟩ [TidalAlbum.mk "Album" ["Artist"] 5 []] (by decide)).1

/-! ## C7 -/

/-- Removing a failure marker clears `has` for that id. -/
theorem hasMatchFailure_remove (st : CacheState) (x : String) :
    (st.removeMatchFailure x).hasMatchFailure x = false := by
  simp [CacheState.removeMatchFailure, CacheState.hasMatchFailure, List.mem_filter]

/-- Recording a failure sets `has` for that id. -/
theorem hasMatchFailure_cache (st : CacheState) (x : String) :
    (st.cacheMatchFailure x).hasMatchFailure x = true := by
  simp only [CacheState.cacheMatchFailure, CacheState.hasMatchFailure]
  split
  · assumption
  · simp

/-- C7 (search side): whenever `tidal_search` completes, a successful
match leaves the failure cache without a marker for the track id — in
particular a marker recorded by an earlier `cache(s)` is removed — and a
doubly-failed search records the marker.  (The claim's further assertion
that cache pre-population also clears stale failure markers is refuted by
the code: see `populateTrackMatchCache`, which never calls the remove
operation and in fact raises before inserting.) -/
theorem c7_search_failure_invariant (ratio : String → String → ℚ) (s : SpotifyTrack)
    (env : SearchEnv) (st : CacheState) (res : Option TidalTrack × CacheState)
    (h : tidalSearchModel ratio s env st = .ok res) :
    (res.1.isSome = true → res.2.hasMatchFailure (s.id.getD "") = false)
    ∧ (res.1 = none → res.2.hasMatchFailure (s.id.getD "") = true) := by
  unfold tidalSearchModel at h
  split at h
  · exact absurd h (by simp)
  · cases h
    exact ⟨fun _ => hasMatchFailure_remove st _, by simp⟩
  · split at h
    · exact absurd h (by simp)
    · split at h
      · cases h
        exact ⟨fun _ => hasMatchFailure_remove st _, by simp⟩
      · cases h
        exact ⟨by simp, fun _ => hasMatchFailure_cache st _⟩

/-- C7 witness: a search over empty result sets records the failure
marker for the concrete track id `s1`. -/
theorem c7_search_failure_invariant_witness :
    ((CacheState.mk [] []).cacheMatchFailure "s1").hasMatchFailure "s1" = true :=
  (c7_search_failure_invariant (fun _ _ => (1 : ℚ))
      (SpotifyTrack.mk (some "s1") "Song" ["Artist"] none 1 200000 none)
      (SearchEnv.mk [] []) (CacheState.mk [] [])
      (none, (CacheState.mk [] []).cacheMatchFailure "s1") rfl).2 rfl

/-! ## C10 -/

/-- An available Tidal track that would match `sC10` under the combined
criteria. -/
def tC10 : TidalTrack := ⟨21, "Song", none, ["Artist"], 200, none, true⟩

/-- A Spotify track matching `tC10` by name, artist and duration. -/
def sC10 : SpotifyTrack := ⟨some "s10", "Song", ["Artist"], none, 1, 200000, none⟩

/-- C10: the claim describes the two greedy passes producing one match
record per source track, but the pre-population pass cannot produce any
record: it invokes `match` without a logger, and `match` raises
`AttributeError` on every such call, so on the simplest matching input —
one source track and one available target track that `match` (with a
logger) accepts, first conjunct — `populate_track_match_cache` raises
instead of inserting (second conjunct). -/
theorem c10_populate_crash :
    matchRun true tC10 sC10 = some true
    ∧ populateTrackMatchCache [sC10] [tC10] (CacheState.mk [] []) = .error () := by
  constructor
  · decide
  · rfl

/-! ## C6 -/

/-- First-occurrence deduplication only ever drops elements. -/
theorem dedupKeepFirst_sublist (l : List Int) : List.Sublist (dedupKeepFirst l) l := by
  induction l using dedupKeepFirst.induct with
  | case1 => simp [dedupKeepFirst]
  | case2 x xs ih =>
    rw [dedupKeepFirst]
    exact (ih.trans (List.filter_sublist xs)).cons₂ x

/-- First-occurrence deduplication leaves no duplicates. -/
theorem dedupKeepFirst_nodup (l : List Int) : (dedupKeepFirst l).Nodup := by
  induction l using dedupKeepFirst.induct with
  | case1 => simp [dedupKeepFirst]
  | case2 x xs ih =>
    rw [dedupKeepFirst]
    refine List.nodup_cons.mpr ⟨fun hmem => ?_, ih⟩
    have hx := (dedupKeepFirst_sublist _).subset hmem
    simp [List.mem_filter] at hx

/-- One step of the `get_tracks_for_new_tidal_playlist` loop, phrased
through the per-track candidate `candOf`. -/
theorem getTracksGo_cons (st : CacheState) (seen : List Int) (s : SpotifyTrack)
    (rest : List SpotifyTrack) :
    getTracksGo st seen (s :: rest) =
      match candOf st s with
      | none => getTracksGo st seen rest
      | some tid =>
        if decide (tid ∈ seen) then getTracksGo st seen rest
        else tid :: getTracksGo st (tid :: seen) rest := by
  by_cases htr : truthyOptStr s.id = false
  · simp [getTracksGo, candOf, htr]
  · cases hg : st.getMatch (s.id.getD "") with
    | none => simp [getTracksGo, candOf, htr, hg]
    | some tid =>
      by_cases h0 : tid = 0
      · simp [getTracksGo, candOf, htr, hg, h0]
      · simp [getTracksGo, candOf, htr, hg, h0]

/-- Extending the seen-set by `tid` is the same as filtering `tid` out
after filtering the old seen-set. -/
theorem filter_seen_cons (cands seen : List Int) (tid : Int) :
    (cands.filter (fun x => !decide (x ∈ seen))).filter (fun y => y != tid) =
      cands.filter (fun x => !decide (x ∈ tid :: seen)) := by
  induction cands with
  | nil => rfl
  | cons c cs ih =>
    by_cases hc : c ∈ seen
    · simp only [List.filter_cons, List.mem_cons, hc]
      simp [ih]
    · by_cases hct : c = tid
      · subst hct
        simp only [List.filter_cons, List.mem_cons, hc]
        simp [ih]
      · simp only [List.filter_cons, List.mem_cons, hc, hct]
        simp [hct, ih]

/-- The loop of `get_tracks_for_new_tidal_playlist`, started with an
arbitrary seen-set, equals first-occurrence deduplication of the
per-track candidates not yet seen. -/
theorem getTracksGo_eq (st : CacheState) :
    ∀ (l : List SpotifyTrack) (seen : List Int),
      getTracksGo st seen l =
        dedupKeepFirst ((l.filterMap (candOf st)).filter (fun x => !decide (x ∈ seen))) := by
  intro l
  induction l with
  | nil => intro seen; simp [getTracksGo, dedupKeepFirst]
  | cons s rest ih =>
    intro seen
    rw [getTracksGo_cons]
    cases hcand : candOf st s with
    | none => simp only [List.filterMap_cons, hcand]; exact ih seen
    | some tid =>
      simp only [List.filterMap_cons, hcand]
      by_cases hmem : tid ∈ seen
      · simp only [List.filter_cons, hmem, decide_True, Bool.not_true, if_neg, hmem,
          decide_eq_true_eq, if_pos]
        simp [hmem, ih seen]
      · have hp : (!decide (tid ∈ seen)) = true := by simp [hmem]
        simp only [List.filter_cons, hp, if_pos]
        rw [dedupKeepFirst, filter_seen_cons]
        rw [if_neg (by simpa using hmem)]
        rw [ih (tid :: seen)]

/-- C6: the desired target-id sequence equals first-occurrence
deduplication of the cache image of the source order (`candOf` yields the
cached target id and is `none` exactly for tracks with a falsy id, with no
match-cache entry, or with a falsy cached id — those tracks are excluded);
consequently it contains no duplicates and is an order-preserving
subsequence of the raw candidate sequence. -/
theorem c6_desired_sequence (st : CacheState) (tracks : List SpotifyTrack) :
    getTracksForNewTidalPlaylist st tracks = dedupKeepFirst (tracks.filterMap (candOf st))
    ∧ (getTracksForNewTidalPlaylist st tracks).Nodup
    ∧ List.Sublist (getTracksForNewTidalPlaylist st tracks) (tracks.filterMap (candOf st)) := by
  have h : getTracksForNewTidalPlaylist st tracks
      = dedupKeepFirst (tracks.filterMap (candOf st)) := by
    unfold getTracksForNewTidalPlaylist
    rw [getTracksGo_eq st tracks []]
    congr 1
    simp
  refine ⟨h, ?_, ?_⟩
  · rw [h]; exact dedupKeepFirst_nodup _
  · rw [h]; exact dedupKeepFirst_sublist _

end SpotifyToTidal
